import Mathlib

/-!
Verification of the godwoken-web3 JSON-RPC forwarding shim.

This file gives a shallow embedding of the surviving logic of the
repository: the `Gw` RPC client wrapper, the error translator
`parseError`, the fixed-layout system-log decoder
`parsePolyjuiceSystemLog`, and the `Net` info methods; and proves the
testable properties of the specification about them.

Modelling conventions:
* JS byte buffers are `List (Fin 256)`.
* JS strings are Lean `String`s (lists of characters); `s.slice(n)` and
  `s.substring(n)` are `strDrop s n`, `s.startsWith p` is
  `strStartsWith s p`.
* `Buffer.from(hex, "hex")` is `hexDecode` (decodes pairs of hex digits,
  stopping at the first invalid pair, as Node does);
  `buf.toString("hex")` is `bytesToHex`.
* JS exceptions become the `Thrown` inductive: `RpcError(code, msg)` is
  `Thrown.rpcError`, `new Error(msg)` is `Thrown.jsError`, and the
  exceptions escaping from `JSON.parse` / property access on
  `undefined`/`null` are `Thrown.syntaxError` / `Thrown.typeError`.
* JSON values are the `Json` inductive; `JSON.parse` is `parseJson`
  (restricted to integer numerals, which covers every value this
  service handles) and `JSON.stringify` is `stringify`.
-/

/-- JS string `slice(n)` / `substring(n)` for a non-negative start: drop
the first `n` characters. -/
def strDrop (s : String) (n : Nat) : String :=
  String.mk (s.data.drop n)

/-- JS `String.prototype.startsWith`. -/
def strStartsWith (s p : String) : Bool :=
  p.data.isPrefixOf s.data

/-- Value of a hexadecimal digit character, `none` for a non-hex
character.  Accepts both cases, as Node's hex decoder does. -/
def hexDigitVal? (c : Char) : Option (Fin 16) :=
  let n := c.toNat
  if h : 48 ≤ n ∧ n ≤ 57 then some ⟨n - 48, by omega⟩
  else if h : 97 ≤ n ∧ n ≤ 102 then some ⟨n - 87, by omega⟩
  else if h : 65 ≤ n ∧ n ≤ 70 then some ⟨n - 55, by omega⟩
  else none

/-- Lowercase hexadecimal digit character of a value below 16. -/
def toHexDigit (d : Fin 16) : Char :=
  if d.val < 10 then Char.ofNat (48 + d.val) else Char.ofNat (87 + d.val)

/-- `Buffer.from(s, "hex")` on a character list: decode two hex digits
per byte, stopping (and discarding the rest) at the first invalid pair
or trailing lone digit, as Node's decoder does. -/
def hexDecodeAux : List Char → List (Fin 256)
  | c1 :: c2 :: rest =>
    match hexDigitVal? c1, hexDigitVal? c2 with
    | some hi, some lo => ⟨16 * hi.val + lo.val, by omega⟩ :: hexDecodeAux rest
    | _, _ => []
  | _ => []

/-- `Buffer.from(s, "hex")`. -/
def hexDecode (s : String) : List (Fin 256) :=
  hexDecodeAux s.data

/-- `buf.toString("hex")`: two lowercase hex digits per byte. -/
def bytesToHex (bs : List (Fin 256)) : String :=
  String.mk (bs.foldr
    (fun b acc =>
      toHexDigit ⟨b.val / 16, by omega⟩ :: toHexDigit ⟨b.val % 16, by omega⟩ :: acc)
    [])

/-- Little-endian value of a byte list: the head is the least
significant byte.  `buf.readBigUInt64LE(o)` is `leVal` of the eight
bytes at `o`, `buf.readUInt32LE(o)` is `leVal` of the four bytes at
`o`. -/
def leVal (bs : List (Fin 256)) : Nat :=
  bs.foldr (fun b acc => b.val + 256 * acc) 0

/-- Big-endian value of a byte list (used by the ABI decoder for the
32-byte head words). -/
def beVal (bs : List (Fin 256)) : Nat :=
  bs.foldl (fun acc b => 256 * acc + b.val) 0

/-- A log item as the decoder sees it: a `0x`-prefixed hex `data`
string (src/unnamed/part_000, `LogItem`). -/
structure LogItem where
  data : String
deriving DecidableEq, Repr

/-- Decoded system log record (src/unnamed/part_000,
`PolyjuiceSystemLog`).  `gasUsed` and `cumulativeGasUsed` are the exact
values of `readBigUInt64LE`, `statusCode` of `readUInt32LE`. -/
structure PolyjuiceSystemLog where
  gasUsed : Nat
  cumulativeGasUsed : Nat
  createdAddress : String
  statusCode : Nat
deriving DecidableEq, Repr

/-- `parsePolyjuiceSystemLog` (src/unnamed/part_000 lines 231-246):
hex-decode `logItem.data.slice(2)`, require exactly `8+8+16+4+4 = 40`
bytes, then read the fields at their fixed offsets. -/
def parsePolyjuiceSystemLog (logItem : LogItem) : Except String PolyjuiceSystemLog :=
  let buf := hexDecode (strDrop logItem.data 2)
  if buf.length ≠ 8 + 8 + 16 + 4 + 4 then
    .error ("invalid system log raw data length: " ++ toString buf.length)
  else
    .ok
      { gasUsed := leVal (buf.take 8)
        cumulativeGasUsed := leVal ((buf.drop 8).take 8)
        createdAddress := "0x" ++ bytesToHex ((buf.drop 16).take 16)
        statusCode := leVal ((buf.drop 32).take 4) }

instance {α β : Type _} [DecidableEq α] [DecidableEq β] : DecidableEq (Except α β) := fun a b =>
  match a, b with
  | .error x, .error y => decidable_of_iff (x = y) (by simp)
  | .error _, .ok _ => isFalse (by simp)
  | .ok _, .error _ => isFalse (by simp)
  | .ok x, .ok y => decidable_of_iff (x = y) (by simp)

example : parsePolyjuiceSystemLog ⟨"0x" ++ bytesToHex (List.replicate 40 0)⟩ =
    .ok ⟨0, 0, "0x" ++ String.mk (List.replicate 32 '0'), 0⟩ := by decide

example : parsePolyjuiceSystemLog ⟨"0x0102"⟩ =
    .error "invalid system log raw data length: 2" := by decide

/-- JSON values, as produced by `JSON.parse`.  Numbers are restricted
to integers, which covers every numeric value this service handles. -/
inductive Json where
  | null : Json
  | bool : Bool → Json
  | num : Int → Json
  | str : String → Json
  | arr : List Json → Json
  | obj : List (String × Json) → Json

/-- Whitespace skipping of the JSON grammar. -/
def skipWs : List Char → List Char
  | c :: cs =>
    if c = ' ' ∨ c = '\t' ∨ c = '\n' ∨ c = '\r' then skipWs cs else c :: cs
  | [] => []

/-- Body of a JSON string literal (after the opening quote), fuelled by
the remaining input length.  Rejects raw control characters; handles
the escape sequences of the JSON grammar. -/
def parseJStr : Nat → List Char → Option (List Char × List Char)
  | 0, _ => none
  | _, [] => none
  | fuel + 1, c :: cs =>
    if c = '"' then some ([], cs)
    else if c = '\\' then
      match cs with
      | [] => none
      | e :: cs2 =>
        if e = '"' ∨ e = '\\' ∨ e = '/' then
          (fun (s, r) => (e :: s, r)) <$> parseJStr fuel cs2
        else if e = 'b' then (fun (s, r) => ('\x08' :: s, r)) <$> parseJStr fuel cs2
        else if e = 'f' then (fun (s, r) => ('\x0c' :: s, r)) <$> parseJStr fuel cs2
        else if e = 'n' then (fun (s, r) => ('\n' :: s, r)) <$> parseJStr fuel cs2
        else if e = 'r' then (fun (s, r) => ('\r' :: s, r)) <$> parseJStr fuel cs2
        else if e = 't' then (fun (s, r) => ('\t' :: s, r)) <$> parseJStr fuel cs2
        else if e = 'u' then
          match cs2 with
          | h1 :: h2 :: h3 :: h4 :: cs3 =>
            match hexDigitVal? h1, hexDigitVal? h2, hexDigitVal? h3, hexDigitVal? h4 with
            | some a, some b, some c3, some d =>
              let code := 4096 * a.val + 256 * b.val + 16 * c3.val + d.val
              (fun (s, r) => (Char.ofNat code :: s, r)) <$> parseJStr fuel cs3
            | _, _, _, _ => none
          | _ => none
        else none
    else if c.toNat < 32 then none
    else (fun (s, r) => (c :: s, r)) <$> parseJStr fuel cs

/-- Digit run of a JSON number. -/
def parseDigits : Nat → List Char → List Char → Option (Nat × List Char)
  | 0, _, _ => none
  | fuel + 1, acc, cs =>
    match cs with
    | c :: rest =>
      if 48 ≤ c.toNat ∧ c.toNat ≤ 57 then parseDigits fuel (acc ++ [c]) rest
      else finishDigits acc cs
    | [] => finishDigits acc cs
where
  /-- Turn an accumulated digit run into its value. -/
  finishDigits (acc : List Char) (cs : List Char) : Option (Nat × List Char) :=
    match acc with
    | [] => none
    | '0' :: _ :: _ => none
    | _ => some (acc.foldl (fun n c => 10 * n + (c.toNat - 48)) 0, cs)

mutual

/-- JSON value parser, fuelled by the remaining input length.  Fraction
and exponent parts are not modelled (the model accepts only integer
numerals). -/
def parseVal : Nat → List Char → Option (Json × List Char)
  | 0, _ => none
  | fuel + 1, cs =>
    match skipWs cs with
    | [] => none
    | c :: rest =>
      if c = '"' then
        (fun (s, r) => (Json.str (String.mk s), r)) <$> parseJStr fuel rest
      else if c = 't' then
        match rest with
        | 'r' :: 'u' :: 'e' :: r => some (Json.bool true, r)
        | _ => none
      else if c = 'f' then
        match rest with
        | 'a' :: 'l' :: 's' :: 'e' :: r => some (Json.bool false, r)
        | _ => none
      else if c = 'n' then
        match rest with
        | 'u' :: 'l' :: 'l' :: r => some (Json.null, r)
        | _ => none
      else if c = '-' then
        (fun (n, r) => (Json.num (-(n : Int)), r)) <$> parseDigits fuel [] rest
      else if 48 ≤ c.toNat ∧ c.toNat ≤ 57 then
        (fun (n, r) => (Json.num (n : Int), r)) <$> parseDigits fuel [] (c :: rest)
      else if c = '[' then
        match skipWs rest with
        | ']' :: r => some (Json.arr [], r)
        | _ => parseArrItems fuel rest []
      else if c = '\x7b' then
        match skipWs rest with
        | '\x7d' :: r => some (Json.obj [], r)
        | _ => parseObjItems fuel rest []
      else none

/-- Comma-separated array elements up to the closing bracket. -/
def parseArrItems : Nat → List Char → List Json → Option (Json × List Char)
  | 0, _, _ => none
  | fuel + 1, cs, acc =>
    match parseVal fuel cs with
    | none => none
    | some (v, rest) =>
      match skipWs rest with
      | ',' :: r => parseArrItems fuel r (acc ++ [v])
      | ']' :: r => some (Json.arr (acc ++ [v]), r)
      | _ => none

/-- Comma-separated object members up to the closing brace. -/
def parseObjItems : Nat → List Char → List (String × Json) →
    Option (Json × List Char)
  | 0, _, _ => none
  | fuel + 1, cs, acc =>
    match skipWs cs with
    | '"' :: afterQuote =>
      match parseJStr fuel afterQuote with
      | none => none
      | some (key, rest) =>
        match skipWs rest with
        | ':' :: afterColon =>
          match parseVal fuel afterColon with
          | none => none
          | some (v, rest2) =>
            match skipWs rest2 with
            | ',' :: r => parseObjItems fuel r (acc ++ [(String.mk key, v)])
            | '\x7d' :: r => some (Json.obj (acc ++ [(String.mk key, v)]), r)
            | _ => none
        | _ => none
    | _ => none

end

/-- `JSON.parse`: parse a complete value with nothing but whitespace
after it; `none` models the thrown `SyntaxError`. -/
def parseJson (s : String) : Option Json :=
  match parseVal (s.data.length + 1) s.data with
  | some (v, rest) => if skipWs rest = [] then some v else none
  | none => none

/-- JSON string escaping used by `JSON.stringify`. -/
def escChar (c : Char) : List Char :=
  if c = '"' then ['\\', '"']
  else if c = '\\' then ['\\', '\\']
  else if c = '\x08' then ['\\', 'b']
  else if c = '\x0c' then ['\\', 'f']
  else if c = '\n' then ['\\', 'n']
  else if c = '\r' then ['\\', 'r']
  else if c = '\t' then ['\\', 't']
  else if h : c.toNat < 32 then
    ['\\', 'u', '0', '0', toHexDigit ⟨c.toNat / 16, by omega⟩,
      toHexDigit ⟨c.toNat % 16, by omega⟩]
  else [c]

/-- A JSON string literal as `JSON.stringify` prints it. -/
def stringifyStr (s : String) : String :=
  String.mk ('"' :: s.data.foldr (fun c acc => escChar c ++ acc) ['"'])

mutual

/-- `JSON.stringify` (no spacing argument). -/
def stringify : Json → String
  | .null => "null"
  | .bool b => if b then "true" else "false"
  | .num n => toString n
  | .str s => stringifyStr s
  | .arr xs => "[" ++ stringifyList xs ++ "]"
  | .obj kvs => "\x7b" ++ stringifyMembers kvs ++ "\x7d"

/-- Comma-separated serialized array elements. -/
def stringifyList : List Json → String
  | [] => ""
  | [x] => stringify x
  | x :: xs => stringify x ++ "," ++ stringifyList xs

/-- Comma-separated serialized object members. -/
def stringifyMembers : List (String × Json) → String
  | [] => ""
  | [(k, v)] => stringifyStr k ++ ":" ++ stringify v
  | (k, v) :: kvs => stringifyStr k ++ ":" ++ stringify v ++ "," ++ stringifyMembers kvs

end

example : parseJson "\x7b\"code\":5,\"a\":[1,-2,null]\x7d" =
    some (Json.obj [("code", Json.num 5), ("a", Json.arr [Json.num 1, Json.num (-2), Json.null])]) :=
  rfl

example :
    stringify (Json.obj [("status_code", Json.num 0), ("status_reason", Json.str "abc")]) =
      "\x7b\"status_code\":0,\"status_reason\":\"abc\"\x7d" := rfl

/-- Object member lookup with the last occurrence winning, as
`JSON.parse` builds objects. -/
def lookupField (kvs : List (String × Json)) (k : String) : Option Json :=
  List.lookup k kvs.reverse

/-- JS property access `v.k` on a possibly-`undefined` parsed JSON
value: `none` on the outside is `undefined`.  Access on `undefined` or
`null` throws a `TypeError` (the `Except.error` case); access on an
object looks the key up; access on any other value yields `undefined`
(none of the JSON primitives has the properties this code reads). -/
def jsGet : Option Json → String → Except String (Option Json)
  | none, k => .error ("Cannot read properties of undefined (reading " ++ k ++ ")")
  | some .null, k => .error ("Cannot read properties of null (reading " ++ k ++ ")")
  | some (.obj kvs), k => .ok (lookupField kvs k)
  | some _, _ => .ok none

/-- ABI decoding of a dynamic `string` parameter
(`abiCoder.decodeParameter("string", hexData)` of `web3-eth-abi`): read
the 32-byte big-endian head word as the offset of the tail, the 32-byte
big-endian word there as the byte length, then that many bytes as the
string; out-of-bounds data throws. -/
def decodeAbiString (hexData : String) : Except String String :=
  let bs := hexDecode hexData
  if bs.length < 32 then .error "data out-of-bounds"
  else
    let off := beVal (bs.take 32)
    if bs.length < off + 32 then .error "data out-of-bounds"
    else
      let len := beVal ((bs.drop off).take 32)
      if bs.length < off + 32 + len then .error "data out-of-bounds"
      else .ok (String.mk (((bs.drop (off + 32)).take len).map (fun b => Char.ofNat b.val)))

/-- The exceptions `parseError` can raise.  `rpcError` is the
`RpcError` class of `../error` (a code — possibly `undefined` when the
upstream JSON lacks one — and a message); `jsError` is a plain
`new Error(message)`; `typeError` and `syntaxError` are the exceptions
escaping from property access on `undefined`/`null` and from
`JSON.parse` respectively. -/
inductive Thrown where
  | rpcError (code : Option Json) (message : String)
  | jsError (message : String)
  | typeError (message : String)
  | syntaxError (message : String)

/-- `true` exactly for the `RpcError` shape (an error carrying a
numeric-code slot alongside its message). -/
def Thrown.isRpcError : Thrown → Bool
  | .rpcError _ _ => true
  | _ => false

/-- The code slot of a raised error: present only on the `RpcError`
shape. -/
def Thrown.code? : Thrown → Option (Option Json)
  | .rpcError c _ => some c
  | _ => none

/-- `true` exactly for a plain `new Error(...)` (the shape branch 2
raises). -/
def Thrown.isPlainJsError : Thrown → Bool
  | .jsError _ => true
  | _ => false

/-- The message of a raised error. -/
def Thrown.message : Thrown → String
  | .rpcError _ m => m
  | .jsError m => m
  | .typeError m => m
  | .syntaxError m => m

/-- Modelled from the spec: `GW_RPC_REQUEST_ERROR`, the fixed generic
request-error code imported from `../error-code` (a module outside the
provided sources).  Only its fixedness matters to the claims; the
numeric value here is a placeholder. -/
def GW_RPC_REQUEST_ERROR : Int := -32099

/-- A caught JS error as `parseError` sees it: only its `message`
property is read. -/
structure CaughtError where
  message : String
deriving DecidableEq, Repr

/-- The revert-error message marker (`prefix` local of `parseError`). -/
def revertPfx : String := "JSONRPCError: server error "

/-- `parseError` (src/unnamed/part_000 lines 248-270).  The source
always throws; the returned `Thrown` is the exception raised.  Branch
1 (revert): strip the marker, `JSON.parse` the remainder, decode
`err.data.last_log` as a system log, ABI-decode
`err.data.return_data.substring(10)`, and raise
`RpcError(err.code, JSON.stringify({status_code, status_reason}))`;
any failure inside those steps raises that step's own exception.
Branch 2: messages starting with `"request to"` raise
`new Error(message)`.  Branch 3: everything else raises
`RpcError(GW_RPC_REQUEST_ERROR, error.message)`. -/
def parseError (error : CaughtError) : Thrown :=
  let message : String := error.message
  if strStartsWith message revertPfx then
    let jsonErr := strDrop message revertPfx.length
    match parseJson jsonErr with
    | none => .syntaxError ("Unexpected token in JSON: " ++ jsonErr)
    | some err =>
      match jsGet (some err) "data" with
      | .error m => .typeError m
      | .ok dataVal =>
        match jsGet dataVal "last_log" with
        | .error m => .typeError m
        | .ok lastLog =>
          match jsGet lastLog "data" with
          | .error m => .typeError m
          | .ok none => .typeError "Cannot read properties of undefined (reading slice)"
          | .ok (some (Json.str logHex)) =>
            match parsePolyjuiceSystemLog ⟨logHex⟩ with
            | .error m => .jsError m
            | .ok polyjuiceSystemLog =>
              match jsGet dataVal "return_data" with
              | .error m => .typeError m
              | .ok none => .typeError "Cannot read properties of undefined (reading substring)"
              | .ok (some (Json.str returnData)) =>
                match decodeAbiString (strDrop returnData 10) with
                | .error m => .jsError m
                | .ok statusReason =>
                  let errorReceipt := Json.obj
                    [("status_code", Json.num (polyjuiceSystemLog.statusCode : Int)),
                     ("status_reason", Json.str statusReason)]
                  .rpcError (match err with
                             | .obj kvs => lookupField kvs "code"
                             | _ => none)
                    (stringify errorReceipt)
              | .ok (some _) => .typeError "returnData.substring is not a function"
          | .ok (some _) => .typeError "logItem.data.slice is not a function"
  else if strStartsWith message "request to" then
    .jsError message
  else
    .rpcError (some (Json.num GW_RPC_REQUEST_ERROR)) error.message

example : parseError ⟨"request to http://x failed"⟩ =
    .jsError "request to http://x failed" := rfl

example : parseError ⟨"weird"⟩ =
    .rpcError (some (Json.num GW_RPC_REQUEST_ERROR)) "weird" := rfl

example :
    (parseError ⟨"JSONRPCError: server error bogus"⟩).isRpcError = false := rfl

/-- The `last_log.data` of the worked example of the spec (§8): forty
zero bytes. -/
def exLastLogHex : String := "0x" ++ String.mk (List.replicate 80 '0')

/-- The `return_data` of the worked example of the spec (§8):
`"0x" + "0".repeat(10)` followed by a valid ABI string encoding (here
the encoding of the empty string: an offset word of 32 and a length
word of 0). -/
def exReturnData : String :=
  "0x" ++ String.mk (List.replicate 10 '0') ++
    (String.mk (List.replicate 62 '0') ++ "20") ++
    String.mk (List.replicate 64 '0')

/-- The upstream error object of the worked example of the spec (§8). -/
def exErrJson : Json :=
  Json.obj
    [("code", Json.num 5),
     ("data", Json.obj
       [("last_log", Json.obj [("data", Json.str exLastLogHex)]),
        ("return_data", Json.str exReturnData)])]

/-- The caught message of the worked example of the spec (§8). -/
def exMessage : String := revertPfx ++ stringify exErrJson

set_option maxRecDepth 10000 in
example :
    parseError ⟨exMessage⟩ =
      .rpcError (some (Json.num 5)) "\x7b\"status_code\":0,\"status_reason\":\"\"\x7d" := rfl

/-- The upstream JSON-RPC client (`this.rpc` of class `Gw`, a
`ckb-js-toolkit` `RPC` handle): a remote method name and an argument
list either return a result or reject with a caught error.  The
methods of `Gw` take it as an explicit parameter. -/
def RpcFn : Type := String → List Json → Except CaughtError Json

/-- What a `Gw` method call does: return the upstream result, or raise
the exception produced by `parseError` (the source's `catch` block
calls `parseError(error)`, which always throws). -/
inductive Outcome where
  | ok (v : Json)
  | thrown (t : Thrown)

/-- `Gw.ping` (src/unnamed/part_000): forward to `gw_ping`. -/
def Gw.ping (rpc : RpcFn) (args : List Json) : Outcome :=
  match rpc "gw_ping" args with
  | .ok result => .ok result
  | .error e => .thrown (parseError e)

/-- `Gw.get_tip_block_hash`: forward to `gw_get_tip_block_hash`. -/
def Gw.get_tip_block_hash (rpc : RpcFn) (args : List Json) : Outcome :=
  match rpc "gw_get_tip_block_hash" args with
  | .ok result => .ok result
  | .error e => .thrown (parseError e)

/-- `Gw.get_block_hash`: forward to `gw_get_block_hash`. -/
def Gw.get_block_hash (rpc : RpcFn) (args : List Json) : Outcome :=
  match rpc "gw_get_block_hash" args with
  | .ok result => .ok result
  | .error e => .thrown (parseError e)

/-- `Gw.get_block`: forward to `gw_get_block`. -/
def Gw.get_block (rpc : RpcFn) (args : List Json) : Outcome :=
  match rpc "gw_get_block" args with
  | .ok result => .ok result
  | .error e => .thrown (parseError e)

/-- `Gw.get_block_by_number`: forward to `gw_get_block_by_number`. -/
def Gw.get_block_by_number (rpc : RpcFn) (args : List Json) : Outcome :=
  match rpc "gw_get_block_by_number" args with
  | .ok result => .ok result
  | .error e => .thrown (parseError e)

/-- `Gw.get_balance`: forward to `gw_get_balance`. -/
def Gw.get_balance (rpc : RpcFn) (args : List Json) : Outcome :=
  match rpc "gw_get_balance" args with
  | .ok result => .ok result
  | .error e => .thrown (parseError e)

/-- `Gw.get_storage_at`: forward to `gw_get_storage_at`. -/
def Gw.get_storage_at (rpc : RpcFn) (args : List Json) : Outcome :=
  match rpc "gw_get_storage_at" args with
  | .ok result => .ok result
  | .error e => .thrown (parseError e)

/-- `Gw.get_account_id_by_script_hash`: forward to
`gw_get_account_id_by_script_hash`. -/
def Gw.get_account_id_by_script_hash (rpc : RpcFn) (args : List Json) : Outcome :=
  match rpc "gw_get_account_id_by_script_hash" args with
  | .ok result => .ok result
  | .error e => .thrown (parseError e)

/-- `Gw.get_nonce`: forward to `gw_get_nonce`. -/
def Gw.get_nonce (rpc : RpcFn) (args : List Json) : Outcome :=
  match rpc "gw_get_nonce" args with
  | .ok result => .ok result
  | .error e => .thrown (parseError e)

/-- `Gw.get_script`: forward to `gw_get_script`. -/
def Gw.get_script (rpc : RpcFn) (args : List Json) : Outcome :=
  match rpc "gw_get_script" args with
  | .ok result => .ok result
  | .error e => .thrown (parseError e)

/-- `Gw.get_script_hash`: forward to `gw_get_script_hash`. -/
def Gw.get_script_hash (rpc : RpcFn) (args : List Json) : Outcome :=
  match rpc "gw_get_script_hash" args with
  | .ok result => .ok result
  | .error e => .thrown (parseError e)

/-- `Gw.get_data`: forward to `gw_get_data`. -/
def Gw.get_data (rpc : RpcFn) (args : List Json) : Outcome :=
  match rpc "gw_get_data" args with
  | .ok result => .ok result
  | .error e => .thrown (parseError e)

/-- `Gw.get_transaction_receipt`: forward to
`gw_get_transaction_receipt`. -/
def Gw.get_transaction_receipt (rpc : RpcFn) (args : List Json) : Outcome :=
  match rpc "gw_get_transaction_receipt" args with
  | .ok result => .ok result
  | .error e => .thrown (parseError e)

/-- `Gw.get_transaction`: forward to `gw_get_transaction`. -/
def Gw.get_transaction (rpc : RpcFn) (args : List Json) : Outcome :=
  match rpc "gw_get_transaction" args with
  | .ok result => .ok result
  | .error e => .thrown (parseError e)

/-- `Gw.execute_l2transaction`: forward to `gw_execute_l2transaction`. -/
def Gw.execute_l2transaction (rpc : RpcFn) (args : List Json) : Outcome :=
  match rpc "gw_execute_l2transaction" args with
  | .ok result => .ok result
  | .error e => .thrown (parseError e)

/-- `Gw.execute_raw_l2transaction`: forward to
`gw_execute_raw_l2transaction`. -/
def Gw.execute_raw_l2transaction (rpc : RpcFn) (args : List Json) : Outcome :=
  match rpc "gw_execute_raw_l2transaction" args with
  | .ok result => .ok result
  | .error e => .thrown (parseError e)

/-- `Gw.submit_l2transaction`: forward to `gw_submit_l2transaction`. -/
def Gw.submit_l2transaction (rpc : RpcFn) (args : List Json) : Outcome :=
  match rpc "gw_submit_l2transaction" args with
  | .ok result => .ok result
  | .error e => .thrown (parseError e)

/-- `Gw.submit_withdrawal_request`: forward to
`gw_submit_withdrawal_request`. -/
def Gw.submit_withdrawal_request (rpc : RpcFn) (args : List Json) : Outcome :=
  match rpc "gw_submit_withdrawal_request" args with
  | .ok result => .ok result
  | .error e => .thrown (parseError e)

/-- `Gw.get_script_hash_by_short_address`: forward to
`gw_get_script_hash_by_short_address`. -/
def Gw.get_script_hash_by_short_address (rpc : RpcFn) (args : List Json) : Outcome :=
  match rpc "gw_get_script_hash_by_short_address" args with
  | .ok result => .ok result
  | .error e => .thrown (parseError e)

/-- The forwarding contract of one `Gw` method for inbound name
`inbound`: for every upstream client and argument list, an upstream
success under the remote name `"gw_" ++ inbound` is returned unchanged,
and an upstream failure raises exactly what the error translator
produces — in particular the method never returns normally after an
upstream failure. -/
def forwardsTo (m : RpcFn → List Json → Outcome) (inbound : String) : Prop :=
  ∀ (rpc : RpcFn) (args : List Json),
    (∀ v, rpc ("gw_" ++ inbound) args = .ok v → m rpc args = .ok v) ∧
    (∀ e, rpc ("gw_" ++ inbound) args = .error e → m rpc args = .thrown (parseError e)) ∧
    (∀ e, rpc ("gw_" ++ inbound) args = .error e → ∀ v, m rpc args ≠ .ok v)

/-- The static configuration document (`../config/eth.json`): at least
a chain id. -/
structure EthConfig where
  chain_id : Json

/-- `Net.version` (src/packages/api-server/lib/methods/modules/net.js):
`callback(null, Config.chain_id)`.  The callback is explicit; its first
argument `none` is JS `null`. -/
def Net.version {α : Type _} (cfg : EthConfig) (args : List Json)
    (callback : Option Json → Json → α) : α :=
  callback none cfg.chain_id

/-- `Net.peerCount`: `callback(null, 0)`. -/
def Net.peerCount {α : Type _} (args : List Json)
    (callback : Option Json → Json → α) : α :=
  callback none (Json.num 0)

/-- `Net.listening`: `callback(null, server.isListening())`.  Modelled
from the spec: `server.isListening()` lives in `../../../bin/www`,
outside the provided sources; it is taken as an opaque boolean input
`isListening`, the hosting server's current listening state. -/
def Net.listening {α : Type _} (isListening : Bool) (args : List Json)
    (callback : Option Json → Json → α) : α :=
  callback none (Json.bool isListening)

/-! ### Helper lemmas -/

theorem hexDigitVal?_toHexDigit : ∀ d : Fin 16, hexDigitVal? (toHexDigit d) = some d := by
  decide

theorem hexDecodeAux_encode (bs : List (Fin 256)) :
    hexDecodeAux (bs.foldr
      (fun b acc =>
        toHexDigit ⟨b.val / 16, by omega⟩ :: toHexDigit ⟨b.val % 16, by omega⟩ :: acc)
      []) = bs := by
  induction bs with
  | nil => rfl
  | cons b bs ih =>
    simp only [List.foldr_cons, hexDecodeAux, hexDigitVal?_toHexDigit, ih]
    congr 1
    apply Fin.ext
    have := b.isLt
    simp only []
    omega

theorem hexDecode_bytesToHex (bs : List (Fin 256)) : hexDecode (bytesToHex bs) = bs :=
  hexDecodeAux_encode bs

theorem strDrop_append_0x (s : String) : strDrop ("0x" ++ s) 2 = s := by
  show String.mk ((("0x" : String) ++ s).data.drop 2) = s
  rw [String.data_append]
  rfl

theorem leVal_cons (b : Fin 256) (bs : List (Fin 256)) :
    leVal (b :: bs) = b.val + 256 * leVal bs := rfl

/-- Specification-side reading of a `w`-byte little-endian unsigned
integer at byte offset `off`: the byte at `off + i` has weight
`256 ^ i`. -/
def specLE (bs : List (Fin 256)) (off w : Nat) : Nat :=
  ∑ i ∈ Finset.range w, 256 ^ i * (bs.getD (off + i) 0).val

theorem leVal_eq_sum (bs : List (Fin 256)) :
    leVal bs = ∑ i ∈ Finset.range bs.length, 256 ^ i * (bs.getD i 0).val := by
  induction bs with
  | nil => simp [leVal]
  | cons b bs ih =>
    rw [leVal_cons, List.length_cons, Finset.sum_range_succ', ih, Finset.mul_sum]
    simp only [List.getD_cons_succ, List.getD_cons_zero, pow_zero, one_mul, pow_succ]
    rw [Nat.add_comm]
    congr 1
    apply Finset.sum_congr rfl
    intro i _
    ring

theorem getD_take_drop (bs : List (Fin 256)) (off w i : Nat) (hi : i < w) :
    ((bs.drop off).take w).getD i 0 = bs.getD (off + i) 0 := by
  rw [List.getD_eq_getElem?_getD, List.getD_eq_getElem?_getD,
    List.getElem?_take_of_lt hi, List.getElem?_drop]

theorem leVal_segment (bs : List (Fin 256)) (off w : Nat) (hw : off + w ≤ bs.length) :
    leVal ((bs.drop off).take w) = specLE bs off w := by
  have hlen : ((bs.drop off).take w).length = w := by
    simp only [List.length_take, List.length_drop]
    omega
  rw [leVal_eq_sum, hlen]
  exact Finset.sum_congr rfl fun i hi =>
    congrArg _ (congrArg Fin.val (getD_take_drop bs off w i (Finset.mem_range.mp hi)))

/-- Evaluation of the decoder on a 40-byte buffer presented as a
`0x`-prefixed hex string. -/
theorem parsePolyjuiceSystemLog_ok (buf : List (Fin 256)) (h : buf.length = 40) :
    parsePolyjuiceSystemLog ⟨"0x" ++ bytesToHex buf⟩ =
      .ok
        { gasUsed := leVal (buf.take 8)
          cumulativeGasUsed := leVal ((buf.drop 8).take 8)
          createdAddress := "0x" ++ bytesToHex ((buf.drop 16).take 16)
          statusCode := leVal ((buf.drop 32).take 4) } := by
  unfold parsePolyjuiceSystemLog
  rw [strDrop_append_0x, hexDecode_bytesToHex]
  simp [h]

/-- Evaluation of the decoder on a wrong-length buffer presented as a
`0x`-prefixed hex string. -/
theorem parsePolyjuiceSystemLog_err (buf : List (Fin 256)) (h : buf.length ≠ 40) :
    parsePolyjuiceSystemLog ⟨"0x" ++ bytesToHex buf⟩ =
      .error ("invalid system log raw data length: " ++ toString buf.length) := by
  unfold parsePolyjuiceSystemLog
  rw [strDrop_append_0x, hexDecode_bytesToHex]
  simp [h]

/-- The upstream error object shape branch 1 expects:
`{code, data: {last_log: {data}, return_data}}`. -/
def revertErrShape (code : Int) (lastLogHex returnData : String) : Json :=
  Json.obj
    [("code", Json.num code),
     ("data", Json.obj
       [("last_log", Json.obj [("data", Json.str lastLogHex)]),
        ("return_data", Json.str returnData)])]

/-- The serialized receipt branch 1 raises as its message. -/
def receiptMsg (statusCode : Nat) (reason : String) : String :=
  stringify (Json.obj
    [("status_code", Json.num (statusCode : Int)), ("status_reason", Json.str reason)])

theorem parseError_branch2 (e : CaughtError)
    (h1 : strStartsWith e.message revertPfx = false)
    (h2 : strStartsWith e.message "request to" = true) :
    parseError e = .jsError e.message := by
  unfold parseError
  simp [h1, h2]

theorem parseError_branch3 (e : CaughtError)
    (h1 : strStartsWith e.message revertPfx = false)
    (h2 : strStartsWith e.message "request to" = false) :
    parseError e = .rpcError (some (Json.num GW_RPC_REQUEST_ERROR)) e.message := by
  unfold parseError
  simp [h1, h2]

theorem parseError_branch1 (e : CaughtError) (code : Int)
    (lastLogHex returnData : String) (log : PolyjuiceSystemLog) (reason : String)
    (hpre : strStartsWith e.message revertPfx = true)
    (hjson : parseJson (strDrop e.message revertPfx.length) =
      some (revertErrShape code lastLogHex returnData))
    (hlog : parsePolyjuiceSystemLog ⟨lastLogHex⟩ = .ok log)
    (habi : decodeAbiString (strDrop returnData 10) = .ok reason) :
    parseError e = .rpcError (some (Json.num code)) (receiptMsg log.statusCode reason) := by
  unfold parseError
  simp only [hpre, if_true, hjson, revertErrShape, jsGet, lookupField, List.reverse_cons,
    List.reverse_nil, List.nil_append, List.cons_append, List.lookup,
    show (("code" == "data") = false) from rfl,
    show (("code" == "code") = true) from rfl,
    show (("data" == "data") = true) from rfl,
    show (("last_log" == "return_data") = false) from rfl,
    show (("last_log" == "last_log") = true) from rfl,
    show (("return_data" == "return_data") = true) from rfl,
    hlog, habi, receiptMsg]

/-! ### Claim theorems -/

/-- C1 (amended): `parseError` classifies every caught error by two
prefix tests checked in order, branch 1 first: a message starting with
`"JSONRPCError: server error "` enters the revert branch, which raises
the structured revert error whenever the remainder is JSON of the
expected shape with a decodable system log and return data (and
otherwise lets that step's parse/decode exception escape); else a
message starting with `"request to"` raises a plain error with the
identical message text; else the translator raises with the fixed
generic request-error code and the original message as its text. -/
theorem parseError_classification (e : CaughtError) :
    (strStartsWith e.message revertPfx = true →
      ∀ (code : Int) (lastLogHex returnData : String)
        (log : PolyjuiceSystemLog) (reason : String),
        parseJson (strDrop e.message revertPfx.length) =
          some (revertErrShape code lastLogHex returnData) →
        parsePolyjuiceSystemLog ⟨lastLogHex⟩ = .ok log →
        decodeAbiString (strDrop returnData 10) = .ok reason →
        parseError e = .rpcError (some (Json.num code)) (receiptMsg log.statusCode reason)) ∧
    (strStartsWith e.message revertPfx = false →
      strStartsWith e.message "request to" = true →
      parseError e = .jsError e.message) ∧
    (strStartsWith e.message revertPfx = false →
      strStartsWith e.message "request to" = false →
      parseError e = .rpcError (some (Json.num GW_RPC_REQUEST_ERROR)) e.message) :=
  ⟨fun hpre _ _ _ _ _ hjson hlog habi =>
      parseError_branch1 e _ _ _ _ _ hpre hjson hlog habi,
    parseError_branch2 e, parseError_branch3 e⟩

/-- C1 witness: the classification applied to a concrete
network-failure message. -/
theorem parseError_classification_witness :
    strStartsWith "request to http://godwoken failed" revertPfx = false ∧
    strStartsWith "request to http://godwoken failed" "request to" = true ∧
    parseError ⟨"request to http://godwoken failed"⟩ =
      .jsError "request to http://godwoken failed" :=
  ⟨rfl, rfl, (parseError_classification ⟨"request to http://godwoken failed"⟩).2.1 rfl rfl⟩

/-- C1 counterexample: a message that starts with the revert marker but
whose remainder is not JSON makes branch 1 raise a `SyntaxError`, not
the structured revert error — so the three-way classification as
claimed does not hold on this input. -/
theorem parseError_classification_cex :
    strStartsWith "JSONRPCError: server error bogus" revertPfx = true ∧
    parseError ⟨"JSONRPCError: server error bogus"⟩ =
      .syntaxError ("Unexpected token in JSON: " ++ "bogus") ∧
    (parseError ⟨"JSONRPCError: server error bogus"⟩).isRpcError = false :=
  ⟨rfl, rfl, rfl⟩

/-- C2: for every error whose message is the revert marker followed by
JSON of the shape `{code, data: {last_log, return_data}}` whose log
decodes and whose return data ABI-decodes, the translator raises an
error carrying the upstream numeric code and, as its message, the JSON
serialization of `{status_code, status_reason}` built from the decoded
log's status code and the ABI-decoded string. -/
theorem parseError_revert_translation (e : CaughtError) (code : Int)
    (lastLogHex returnData : String) (log : PolyjuiceSystemLog) (reason : String)
    (hpre : strStartsWith e.message revertPfx = true)
    (hjson : parseJson (strDrop e.message revertPfx.length) =
      some (revertErrShape code lastLogHex returnData))
    (hlog : parsePolyjuiceSystemLog ⟨lastLogHex⟩ = .ok log)
    (habi : decodeAbiString (strDrop returnData 10) = .ok reason) :
    parseError e = .rpcError (some (Json.num code)) (receiptMsg log.statusCode reason) ∧
    (parseError e).message =
      stringify (Json.obj
        [("status_code", Json.num (log.statusCode : Int)),
         ("status_reason", Json.str reason)]) := by
  have h := parseError_branch1 e code lastLogHex returnData log reason hpre hjson hlog habi
  exact ⟨h, by rw [h]; rfl⟩

set_option maxRecDepth 40000 in
/-- C2 witness: the exact worked example of §8 of the spec — code 5,
`last_log.data` of forty zero bytes, `return_data` of
`"0x" + "0".repeat(10)` followed by a valid ABI string encoding — is
translated to an error with code 5 whose message JSON-parses to
`{status_code: 0, status_reason: <decoded string>}`. -/
theorem parseError_revert_translation_witness :
    strStartsWith exMessage revertPfx = true ∧
    parseError ⟨exMessage⟩ = .rpcError (some (Json.num 5)) (receiptMsg 0 "") ∧
    parseJson (receiptMsg 0 "") =
      some (Json.obj [("status_code", Json.num 0), ("status_reason", Json.str "")]) :=
  ⟨rfl,
    (parseError_revert_translation ⟨exMessage⟩ 5 exLastLogHex exReturnData
      ⟨0, 0, "0x" ++ String.mk (List.replicate 32 '0'), 0⟩ "" rfl rfl rfl rfl).1,
    rfl⟩

/-- C3: the fixed-layout log decoder raises the descriptive
length-mismatch error exactly when the hex-decoded buffer is not 40
bytes long, and returns a record for every 40-byte buffer. -/
theorem parsePolyjuiceSystemLog_length_guard :
    (∀ l : LogItem,
      parsePolyjuiceSystemLog l =
          .error ("invalid system log raw data length: " ++
            toString (hexDecode (strDrop l.data 2)).length) ↔
        (hexDecode (strDrop l.data 2)).length ≠ 40) ∧
    (∀ buf : List (Fin 256), buf.length = 40 →
      ∃ r, parsePolyjuiceSystemLog ⟨"0x" ++ bytesToHex buf⟩ = .ok r) ∧
    (∀ buf : List (Fin 256), buf.length ≠ 40 →
      parsePolyjuiceSystemLog ⟨"0x" ++ bytesToHex buf⟩ =
        .error ("invalid system log raw data length: " ++ toString buf.length)) := by
  refine ⟨fun l => ⟨fun heq h40 => ?_, fun hne => ?_⟩,
    fun buf h => ⟨_, parsePolyjuiceSystemLog_ok buf h⟩,
    fun buf h => parsePolyjuiceSystemLog_err buf h⟩
  · unfold parsePolyjuiceSystemLog at heq
    simp only [h40] at heq
    simp at heq
  · unfold parsePolyjuiceSystemLog
    simp [hne]

/-- C3 witness: the length guard applied to concrete buffers of
lengths 100 (fails) and 40 (succeeds). -/
theorem parsePolyjuiceSystemLog_length_guard_witness :
    (List.replicate 100 (0 : Fin 256)).length ≠ 40 ∧
    parsePolyjuiceSystemLog ⟨"0x" ++ bytesToHex (List.replicate 100 (0 : Fin 256))⟩ =
      .error "invalid system log raw data length: 100" ∧
    (List.replicate 40 (1 : Fin 256)).length = 40 ∧
    ∃ r, parsePolyjuiceSystemLog ⟨"0x" ++ bytesToHex (List.replicate 40 (1 : Fin 256))⟩ = .ok r :=
  ⟨by decide,
    parsePolyjuiceSystemLog_length_guard.2.2 (List.replicate 100 0) (by decide),
    by decide,
    parsePolyjuiceSystemLog_length_guard.2.1 (List.replicate 40 1) (by decide)⟩

/-- C4: on every 40-byte buffer the decoder returns the fixed-layout
fields: `gasUsed` is the little-endian integer of bytes 0-7,
`cumulativeGasUsed` of bytes 8-15, `createdAddress` the hex encoding
(with `0x` prefix) of bytes 16-31, and `statusCode` the little-endian
integer of bytes 32-35. -/
theorem parsePolyjuiceSystemLog_fixed_layout (buf : List (Fin 256)) (h : buf.length = 40) :
    parsePolyjuiceSystemLog ⟨"0x" ++ bytesToHex buf⟩ =
      .ok
        { gasUsed := specLE buf 0 8
          cumulativeGasUsed := specLE buf 8 8
          createdAddress := "0x" ++ bytesToHex ((buf.drop 16).take 16)
          statusCode := specLE buf 32 4 } := by
  have e1 := leVal_segment buf 0 8 (by omega)
  rw [List.drop_zero] at e1
  have e2 := leVal_segment buf 8 8 (by omega)
  have e4 := leVal_segment buf 32 4 (by omega)
  rw [parsePolyjuiceSystemLog_ok buf h, e1, e2, e4]

/-- The buffer of bytes 0, 1, ..., 39. -/
def bufRange40 : List (Fin 256) :=
  (List.range 40).map (fun n => (⟨n % 256, by omega⟩ : Fin 256))

/-- C4 witness: the layout theorem applied to the concrete buffer of
bytes 0,1,...,39. -/
theorem parsePolyjuiceSystemLog_fixed_layout_witness :
    bufRange40.length = 40 ∧
    parsePolyjuiceSystemLog ⟨"0x" ++ bytesToHex bufRange40⟩ =
      .ok
        { gasUsed := specLE bufRange40 0 8
          cumulativeGasUsed := specLE bufRange40 8 8
          createdAddress := "0x" ++ bytesToHex ((bufRange40.drop 16).take 16)
          statusCode := specLE bufRange40 32 4 } :=
  ⟨by decide, parsePolyjuiceSystemLog_fixed_layout bufRange40 (by decide)⟩

/-- A concrete 40-byte buffer of `0xab` bytes. -/
def bufA : List (Fin 256) := List.replicate 40 171

/-- The record decoded from `bufA`. -/
def recA : PolyjuiceSystemLog :=
  { gasUsed := leVal (bufA.take 8)
    cumulativeGasUsed := leVal ((bufA.drop 8).take 8)
    createdAddress := "0x" ++ bytesToHex ((bufA.drop 16).take 16)
    statusCode := leVal ((bufA.drop 32).take 4) }

/-- C5: for every valid 40-byte buffer, hex-decoding the returned
`createdAddress` (after its `0x` prefix) yields exactly bytes 16-31 of
the input, and re-encoding those bytes reproduces the same
`0x`-prefixed string. -/
theorem createdAddress_roundtrip (buf : List (Fin 256)) (h : buf.length = 40)
    (r : PolyjuiceSystemLog)
    (hr : parsePolyjuiceSystemLog ⟨"0x" ++ bytesToHex buf⟩ = .ok r) :
    hexDecode (strDrop r.createdAddress 2) = (buf.drop 16).take 16 ∧
    "0x" ++ bytesToHex (hexDecode (strDrop r.createdAddress 2)) = r.createdAddress := by
  rw [parsePolyjuiceSystemLog_ok buf h] at hr
  injection hr with hr
  subst hr
  dsimp only
  rw [strDrop_append_0x, hexDecode_bytesToHex]
  exact ⟨rfl, rfl⟩

/-- C5 witness: the round-trip applied to the concrete buffer `bufA`. -/
theorem createdAddress_roundtrip_witness :
    bufA.length = 40 ∧
    parsePolyjuiceSystemLog ⟨"0x" ++ bytesToHex bufA⟩ = .ok recA ∧
    hexDecode (strDrop recA.createdAddress 2) = (bufA.drop 16).take 16 ∧
    "0x" ++ bytesToHex (hexDecode (strDrop recA.createdAddress 2)) = recA.createdAddress :=
  ⟨by decide, rfl,
    (createdAddress_roundtrip bufA (by decide) recA rfl).1,
    (createdAddress_roundtrip bufA (by decide) recA rfl).2⟩

/-- C9: for two log items whose hex-decoded buffers are 40 bytes long
and agree on bytes 0-35, the decoder returns identical records — the
final four bytes are counted by the length check but never read. -/
theorem parsePolyjuiceSystemLog_ignores_tail (l1 l2 : LogItem)
    (h1 : (hexDecode (strDrop l1.data 2)).length = 40)
    (h2 : (hexDecode (strDrop l2.data 2)).length = 40)
    (hagree : ∀ i, i < 36 →
      (hexDecode (strDrop l1.data 2)).getD i 0 = (hexDecode (strDrop l2.data 2)).getD i 0) :
    parsePolyjuiceSystemLog l1 = parsePolyjuiceSystemLog l2 := by
  set b1 := hexDecode (strDrop l1.data 2) with hb1
  set b2 := hexDecode (strDrop l2.data 2) with hb2
  have hspec : ∀ off w, off + w ≤ 36 → specLE b1 off w = specLE b2 off w := by
    intro off w hw
    refine Finset.sum_congr rfl fun i hi => ?_
    have hi' := Finset.mem_range.mp hi
    rw [hagree (off + i) (by omega)]
  have hseg : ∀ off w, off + w ≤ 36 →
      leVal ((b1.drop off).take w) = leVal ((b2.drop off).take w) := by
    intro off w hw
    rw [leVal_segment b1 off w (by omega), leVal_segment b2 off w (by omega)]
    exact hspec off w hw
  have haddr : (b1.drop 16).take 16 = (b2.drop 16).take 16 := by
    apply List.ext_getElem
    · simp [h1, h2]
    · intro i hi1 hi2
      have hi16 : i < 16 := by simpa [h1] using hi1
      rw [List.getElem_take, List.getElem_drop, List.getElem_take, List.getElem_drop]
      have hd := hagree (16 + i) (by omega)
      rw [List.getD_eq_getElem?_getD, List.getD_eq_getElem?_getD,
        List.getElem?_eq_getElem (show 16 + i < b1.length by omega),
        List.getElem?_eq_getElem (show 16 + i < b2.length by omega)] at hd
      simpa using hd
  unfold parsePolyjuiceSystemLog
  rw [← hb1, ← hb2]
  simp only [h1, h2]
  norm_num
  have g1 := hseg 0 8 (by omega)
  rw [List.drop_zero, List.drop_zero] at g1
  exact ⟨g1, hseg 8 8 (by omega), by rw [haddr], hseg 32 4 (by omega)⟩

/-- C9 witness: two concrete 40-byte buffers differing only in the
last four bytes decode to the same record. -/
theorem parsePolyjuiceSystemLog_ignores_tail_witness :
    (hexDecode (strDrop ("0x" ++ bytesToHex (List.replicate 36 (7 : Fin 256) ++
      List.replicate 4 (0 : Fin 256))) 2)).length = 40 ∧
    (hexDecode (strDrop ("0x" ++ bytesToHex (List.replicate 36 (7 : Fin 256) ++
      List.replicate 4 (255 : Fin 256))) 2)).length = 40 ∧
    parsePolyjuiceSystemLog
        ⟨"0x" ++ bytesToHex (List.replicate 36 (7 : Fin 256) ++ List.replicate 4 (0 : Fin 256))⟩ =
      parsePolyjuiceSystemLog
        ⟨"0x" ++ bytesToHex (List.replicate 36 (7 : Fin 256) ++ List.replicate 4 (255 : Fin 256))⟩ :=
  ⟨by decide, by decide,
    parsePolyjuiceSystemLog_ignores_tail _ _ (by decide) (by decide) (by decide)⟩

/-- A `Gw` method satisfies `forwardsTo` once its body is the
match-on-upstream-result shape with the right remote name. -/
theorem forwardsTo_mk (m : RpcFn → List Json → Outcome) (inbound remote : String)
    (hname : "gw_" ++ inbound = remote)
    (hm : ∀ (rpc : RpcFn) (args : List Json), m rpc args =
      match rpc remote args with
      | .ok v => Outcome.ok v
      | .error e => Outcome.thrown (parseError e)) :
    forwardsTo m inbound := by
  subst hname
  intro rpc args
  refine ⟨fun v hv => ?_, fun e he => ?_, fun e he v => ?_⟩
  · rw [hm, hv]
  · rw [hm, he]
  · intro hc
    rw [hm, he] at hc
    exact Outcome.noConfusion hc

/-- C6: every named `gw_*` forwarding method of the `Gw` wrapper
forwards its argument list verbatim to the upstream endpoint under the
remote name `"gw_" ++ inbound`, returns the upstream result unchanged
on success, and on failure raises exactly what the error translator
produces — never returning normally. -/
theorem gw_methods_forward :
    forwardsTo Gw.ping "ping" ∧
    forwardsTo Gw.get_tip_block_hash "get_tip_block_hash" ∧
    forwardsTo Gw.get_block_hash "get_block_hash" ∧
    forwardsTo Gw.get_block "get_block" ∧
    forwardsTo Gw.get_block_by_number "get_block_by_number" ∧
    forwardsTo Gw.get_balance "get_balance" ∧
    forwardsTo Gw.get_storage_at "get_storage_at" ∧
    forwardsTo Gw.get_account_id_by_script_hash "get_account_id_by_script_hash" ∧
    forwardsTo Gw.get_nonce "get_nonce" ∧
    forwardsTo Gw.get_script "get_script" ∧
    forwardsTo Gw.get_script_hash "get_script_hash" ∧
    forwardsTo Gw.get_data "get_data" ∧
    forwardsTo Gw.get_transaction_receipt "get_transaction_receipt" ∧
    forwardsTo Gw.get_transaction "get_transaction" ∧
    forwardsTo Gw.execute_l2transaction "execute_l2transaction" ∧
    forwardsTo Gw.execute_raw_l2transaction "execute_raw_l2transaction" ∧
    forwardsTo Gw.submit_l2transaction "submit_l2transaction" ∧
    forwardsTo Gw.submit_withdrawal_request "submit_withdrawal_request" ∧
    forwardsTo Gw.get_script_hash_by_short_address "get_script_hash_by_short_address" := by
  refine ⟨?_, ?_, ?_, ?_, ?_, ?_, ?_, ?_, ?_, ?_, ?_, ?_, ?_, ?_, ?_, ?_, ?_, ?_, ?_⟩ <;>
    exact forwardsTo_mk _ _ _ rfl (fun rpc args => rfl)

/-- An upstream stub that always succeeds with `null`. -/
def rpcOkNull : RpcFn := fun _ _ => .ok Json.null

/-- An upstream stub that always rejects with message `"boom"`. -/
def rpcFailBoom : RpcFn := fun _ _ => .error ⟨"boom"⟩

/-- C6 witness: the forwarding contract applied to `Gw.ping` under a
succeeding and a failing upstream stub. -/
theorem gw_methods_forward_witness :
    Gw.ping rpcOkNull [] = .ok Json.null ∧
    Gw.ping rpcFailBoom [] = .thrown (parseError ⟨"boom"⟩) :=
  ⟨(gw_methods_forward.1 rpcOkNull []).1 Json.null rfl,
    (gw_methods_forward.1 rpcFailBoom []).2.1 ⟨"boom"⟩ rfl⟩

/-- C7: each net info method invokes its callback with `(null, value)`
— success is always reported, never an error: `peerCount` always
passes the constant 0 whatever the arguments, `version` the statically
configured chain id, and `listening` exactly the hosting server's
current listening boolean. -/
theorem net_methods_report_success (cfg : EthConfig) (isListening : Bool)
    (args : List Json) {α : Type _} (callback : Option Json → Json → α) :
    Net.version cfg args callback = callback none cfg.chain_id ∧
    Net.peerCount args callback = callback none (Json.num 0) ∧
    Net.listening isListening args callback = callback none (Json.bool isListening) :=
  ⟨rfl, rfl, rfl⟩

/-- An error whose message carries the revert marker but whose JSON
payload lacks the `data.last_log` field. -/
def c8Input : CaughtError := ⟨"JSONRPCError: server error \x7b\"code\":1\x7d"⟩

/-- C8: an error message that starts with the revert marker but whose
payload lacks `data.last_log` makes the revert branch raise a
`TypeError` — an exception that is neither the structured revert error
(no `RpcError` shape) nor either of the other two classified forms. -/
theorem parseError_revert_branch_partial :
    strStartsWith c8Input.message revertPfx = true ∧
    parseError c8Input =
      .typeError "Cannot read properties of undefined (reading last_log)" ∧
    (parseError c8Input).isRpcError = false ∧
    (parseError c8Input).isPlainJsError = false :=
  ⟨rfl, rfl, rfl, rfl⟩

/-- C10: the network-failure branch raises a plain error carrying only
the original message and no code slot, while the default branch and
the (successful) revert branch raise code-carrying `RpcError`s. -/
theorem parseError_network_branch_shape (e : CaughtError) :
    (strStartsWith e.message revertPfx = false →
      strStartsWith e.message "request to" = true →
      parseError e = .jsError e.message ∧ (parseError e).code? = none) ∧
    (strStartsWith e.message revertPfx = false →
      strStartsWith e.message "request to" = false →
      (parseError e).code? = some (some (Json.num GW_RPC_REQUEST_ERROR)) ∧
      (parseError e).message = e.message) ∧
    (strStartsWith e.message revertPfx = true →
      ∀ (code : Int) (lastLogHex returnData : String)
        (log : PolyjuiceSystemLog) (reason : String),
        parseJson (strDrop e.message revertPfx.length) =
          some (revertErrShape code lastLogHex returnData) →
        parsePolyjuiceSystemLog ⟨lastLogHex⟩ = .ok log →
        decodeAbiString (strDrop returnData 10) = .ok reason →
        (parseError e).code? = some (some (Json.num code))) := by
  refine ⟨fun h1 h2 => ?_, fun h1 h2 => ?_,
    fun hpre code lastLogHex returnData log reason hj hl ha => ?_⟩
  · have h := parseError_branch2 e h1 h2
    exact ⟨h, by rw [h]; rfl⟩
  · have h := parseError_branch3 e h1 h2
    exact ⟨by rw [h]; rfl, by rw [h]; rfl⟩
  · have h := parseError_branch1 e code lastLogHex returnData log reason hpre hj hl ha
    rw [h]
    rfl

/-- C10 witness: the codeless network-failure shape at a concrete
connection-failure message. -/
theorem parseError_network_branch_shape_witness :
    strStartsWith "request to upstream refused" revertPfx = false ∧
    strStartsWith "request to upstream refused" "request to" = true ∧
    parseError ⟨"request to upstream refused"⟩ = .jsError "request to upstream refused" ∧
    (parseError ⟨"request to upstream refused"⟩).code? = none :=
  ⟨rfl, rfl,
    ((parseError_network_branch_shape ⟨"request to upstream refused"⟩).1 rfl rfl).1,
    ((parseError_network_branch_shape ⟨"request to upstream refused"⟩).1 rfl rfl).2⟩
